import Mathlib

/-!
A shallow embedding of `charmtools/pullsource.py` (charm-tools `pull-source`).

The file embeds the two pieces of logic of the module:

* `download_item` — prefix classification, environment-variable directory
  resolution, series derivation, series-directory creation, fetcher lookup,
  collision check, fetch, and error reporting;
* `CharmstoreRepoDownloader.fetch` — the store fallback fetcher that queries
  the store extra-info metadata for a `bzr-url` and delegates to a VCS
  fetcher when the registry recognises that URL.

External collaborators (the `fetchers` registry, the concrete fetcher
objects, the HTTP client, the filesystem, the environment) are not part of
the source file; they are modelled from the spec as explicit parameters:
a registry is a function `String → Option Fetcher` (`none` standing for the
registry raising `FetchError`), the filesystem is a predicate on path
strings inside `World`, and Python exceptions escaping `download_item` are
modelled by the `DLResult.raised` outcome.

Python string operations are modelled on the character lists underlying
Lean strings, matching Python semantics for the inputs the tool handles
(`str.startswith`, slicing off a prefix, `str.split` with a one-character
separator, `os.path.join`, `os.path.expanduser` for `~`/`~/...`,
`os.path.abspath` without path normalisation).  Python truthiness of
optional strings (`x or y`, `if series_dir:`, `if repo_url:`) is modelled
explicitly: `none` and the empty string are falsy.
-/

/-- `pre.data.isPrefixOf s.data`: Python `s.startswith(pre)` on code points. -/
def listPrefixOf : List Char → List Char → Bool
  | [], _ => true
  | _ :: _, [] => false
  | a :: as, b :: bs => a == b && listPrefixOf as bs

/-- Python `s.startswith(pre)`. -/
def pyStartswith (s pre : String) : Bool :=
  listPrefixOf pre.data s.data

/-- Python `s[n:]` (drop the first `n` code points). -/
def pyDrop (s : String) (n : Nat) : String :=
  ⟨s.data.drop n⟩

/-- Split a character list on a separator character; never returns `[]`
(Python `"".split(sep) == [""]`). -/
def splitChar (sep : Char) (l : List Char) : List (List Char) :=
  l.foldr
    (fun c acc =>
      match acc with
      | [] => [[]]
      | cur :: rest => if c == sep then [] :: cur :: rest else (c :: cur) :: rest)
    [[]]

/-- Python `s.split(sep)` for a one-character separator. -/
def pySplit (s : String) (sep : Char) : List String :=
  (splitChar sep s.data).map (fun l => ⟨l⟩)

/-- Python `a or b` on optional strings (`None` and `""` are falsy). -/
def pyOr (a b : Option String) : Option String :=
  match a with
  | some s => if s = "" then b else some s
  | none => b

/-- Python `a or b` where `b` is a (truthy) plain string. -/
def pyOrStr (a : Option String) (b : String) : String :=
  match a with
  | some s => if s = "" then b else s
  | none => b

/-- Python `os.path.join(a, b)` for a single extra component. -/
def pyJoin (a b : String) : String :=
  if pyStartswith b "/" then b
  else if a = "" then b
  else if a.data.getLast? = some '/' then a ++ b
  else a ++ "/" ++ b

/-- Python `os.path.expanduser` for the `~` and `~/...` forms (the
`~user` form, which needs a passwd lookup, is not exercised here). -/
def expanduser (home p : String) : String :=
  if p = "~" then home
  else if pyStartswith p "~/" then home ++ pyDrop p 1
  else p

/-- Python `os.path.abspath` restricted to prepending the working
directory to relative paths (no `normpath` collapsing, which the tool
never relies on). -/
def abspath (cwd p : String) : String :=
  if pyStartswith p "/" then p else pyJoin cwd p

/-- A Python exception escaping or crossing the `try` block of `download_item`:
the `FetchError` of the registry, the `UnboundLocalError` from reading the
unassigned `charm_name`, or any other exception type (carried by name). -/
inductive PErr where
  | fetchError
  | unboundLocal
  | otherExc (name : String)
deriving DecidableEq, Repr

/-- Modelled from the spec: a fetcher returned by the external `fetchers`
registry — a capability with a `fetch(dir) -> path` operation (which may
raise, modelled by `Except`), an interface-fetcher flag standing for the
Python `isinstance(fetcher, fetchers.InterfaceFetcher)` test, and the
`target(dir) -> path` operation of an interface fetcher. -/
structure Fetcher where
  isInterface : Bool
  target : String → String
  fetch : String → Except PErr String

/-- The ambient state `download_item` reads: environment variables, the
working directory, the home directory (for `~` expansion), and which
filesystem paths exist. -/
structure World where
  env : String → Option String
  cwd : String
  home : String
  pathExists : String → Bool

/-- `os.mkdir p`: afterwards `p` exists. -/
def mkdir (w : World) (p : String) : World :=
  { w with pathExists := fun q => if q = p then true else w.pathExists q }

/-- Observable outcome of one `download_item` call: the returned message
string, the printed success line, or an uncaught Python exception. -/
inductive DLResult where
  | msg (s : String)
  | downloaded (item dest : String)
  | raised (e : PErr)
deriving DecidableEq, Repr

/-- Outcome of `download_item` together with the final world and how many
times the `fetch` operation of the selected fetcher ran. -/
structure DLOutcome where
  result : DLResult
  world : World
  fetchCalls : Nat

def LAYER_PREFIX : String := "layer:"

def INTERFACE_PREFIX : String := "interface:"

def CHARM_PREFIX : String := "cs:"

def ERR_DIR_EXISTS : String := "Aborting, destination directory exists"

/-- The message text of the not-found report (its apostrophe is spelled via
code point 39, so the string reads `Can` + apostrophe + `t find source for `). -/
def CANT_FIND : String := "Can" ++ String.singleton (Char.ofNat 39) ++ "t find source for "

/-- The identifier after the reassignment in `download_item`: unchanged for
`layer:`/`interface:` items, `cs:`-prefixed otherwise. -/
def normalize_item (item : String) : String :=
  if pyStartswith item LAYER_PREFIX then item
  else if pyStartswith item INTERFACE_PREFIX then item
  else if pyStartswith item CHARM_PREFIX then item
  else CHARM_PREFIX ++ item

/-- `dir_` after the environment-variable fallback (`dir_ or os.environ.get(...)`). -/
def env_dir (w : World) (item : String) (dir0 : Option String) : Option String :=
  if pyStartswith item LAYER_PREFIX then pyOr dir0 (w.env "LAYER_PATH")
  else if pyStartswith item INTERFACE_PREFIX then pyOr dir0 (w.env "INTERFACE_PATH")
  else pyOr dir0 (w.env "JUJU_REPOSITORY")

/-- `url_parts` (the prefix-stripped identifier split on the slash) on the charm branch. -/
def charm_parts (item : String) : List String :=
  pySplit (pyDrop (normalize_item item) 3) '/'

/-- The local `charm_name = url_parts[-1]`, assigned only on the charm
branch (hence `none` — unbound — for `layer:`/`interface:` items). -/
def derive_charm_name (item : String) : Option String :=
  if pyStartswith item LAYER_PREFIX || pyStartswith item INTERFACE_PREFIX then none
  else some ((charm_parts item).getLastD "")

/-- The local `series_dir`, assigned only on the charm branch:
`url_parts[0]` for a two-segment split whose head does not start with `~`,
`url_parts[1]` for a three-segment split, else left `None`. -/
def derive_series (item : String) : Option String :=
  if pyStartswith item LAYER_PREFIX || pyStartswith item INTERFACE_PREFIX then none
  else
    let parts := charm_parts item
    if parts.length == 2 && !pyStartswith (parts.headD "") "~" then some (parts.headD "")
    else if parts.length == 3 then some (parts.getD 1 "")
    else none

/-- `dir_` after `dir_ = dir_ or os.getcwd()` and
`dir_ = os.path.abspath(os.path.expanduser(dir_))`. -/
def resolve_base (w : World) (item : String) (dir0 : Option String) : String :=
  abspath w.cwd (expanduser w.home (pyOrStr (env_dir w item dir0) w.cwd))

/-- `dir_` after the `if series_dir:` block (the series subdirectory when a
truthy series was derived, the resolved base otherwise). -/
def effective_dir (w : World) (item : String) (dir0 : Option String) : String :=
  match derive_series item with
  | some s => if s = "" then resolve_base w item dir0 else pyJoin (resolve_base w item dir0) s
  | none => resolve_base w item dir0

/-- The world after the `if series_dir:` block (`os.mkdir(series_path)`
when the series path did not exist yet). -/
def post_world (w : World) (item : String) (dir0 : Option String) : World :=
  match derive_series item with
  | some s =>
      if s = "" then w
      else
        let sp := pyJoin (resolve_base w item dir0) s
        if w.pathExists sp then w else mkdir w sp
  | none => w

/-- `dest = fetcher.fetch(dir_)` and what follows: success prints the
`Downloaded` line; a `FetchError` is caught by the surrounding handler and
turned into the not-found message; any other exception propagates. -/
def run_fetch (f : Fetcher) (dir : String) (w : World) (item : String) : DLOutcome :=
  match f.fetch dir with
  | .ok dest => ⟨.downloaded item dest, w, 1⟩
  | .error .fetchError => ⟨.msg (CANT_FIND ++ item), w, 1⟩
  | .error e => ⟨.raised e, w, 1⟩

/-- `download_item(item, dir_)` from `pullsource.py`, with the external
registry `gf` and the ambient `World` passed explicitly.  `gf item = none`
stands for `fetchers.get_fetcher` raising `FetchError`, which the `except`
clause converts to the not-found message. -/
def download_item (gf : String → Option Fetcher) (w : World) (item : String)
    (dir0 : Option String) : DLOutcome :=
  let item1 := normalize_item item
  let dir4 := effective_dir w item dir0
  let w1 := post_world w item dir0
  match gf item1 with
  | none => ⟨.msg (CANT_FIND ++ item1), w1, 0⟩
  | some fetcher =>
    if fetcher.isInterface then
      let target := fetcher.target dir4
      if w1.pathExists target then ⟨.msg (ERR_DIR_EXISTS ++ ": " ++ target), w1, 0⟩
      else run_fetch fetcher dir4 w1 item1
    else
      match derive_charm_name item with
      | none => ⟨.raised .unboundLocal, w1, 0⟩
      | some cn =>
        let final_dest_dir := pyJoin dir4 cn
        if w1.pathExists final_dest_dir then
          ⟨.msg (ERR_DIR_EXISTS ++ ": " ++ final_dest_dir), w1, 0⟩
        else run_fetch fetcher dir4 w1 item1

/-- Modelled from the spec: the collaborators `CharmstoreRepoDownloader.fetch`
uses — the store metadata query (the HTTP GET to the extra-info endpoint for
the entity, read down to the optional `bzr-url` value of the JSON body), the
registry lookup, and the superclass (`CharmstoreDownloader`) fetch, none of
which are in the source file. -/
structure StoreCtx where
  bzrUrl : String → Option String
  getFetcher : String → Option Fetcher
  superFetch : String → Except PErr String

/-- Outcome of `CharmstoreRepoDownloader.fetch`: the returned value (or
propagated exception), whether the superclass fetch ran, and the repo URL
delegated to, if any. -/
structure CSOutcome where
  result : Except PErr String
  superCalled : Bool
  delegatedTo : Option String
deriving Repr

/-- The store entity the downloader was constructed for. -/
structure CharmstoreRepoDownloader where
  entity : String

/-- `CharmstoreRepoDownloader.fetch(dir_)` from `pullsource.py`: read
`bzr-url` from the extra-info metadata; if truthy, look up a fetcher for it
(`none` = the lookup raised `FetchError`, caught and logged) and delegate,
otherwise fall back to the superclass store fetch. -/
def CharmstoreRepoDownloader.fetch (ctx : StoreCtx) (self : CharmstoreRepoDownloader)
    (dir : String) : CSOutcome :=
  match ctx.bzrUrl self.entity with
  | some repo_url =>
      if repo_url = "" then ⟨ctx.superFetch dir, true, none⟩
      else
        match ctx.getFetcher repo_url with
        | none => ⟨ctx.superFetch dir, true, none⟩
        | some fetcher => ⟨fetcher.fetch dir, false, some repo_url⟩
  | none => ⟨ctx.superFetch dir, true, none⟩

/-- `os.path.join(dir_, charm_name)` — the collision-check path of the
charm branch, as a function of the call arguments (`none` when the local
`charm_name` was never assigned). -/
def final_charm_path (w : World) (item : String) (dir0 : Option String) : Option String :=
  (derive_charm_name item).map (fun cn => pyJoin (effective_dir w item dir0) cn)

theorem strAppend_assoc (a b c : String) : a ++ b ++ c = a ++ (b ++ c) :=
  congrArg String.mk (List.append_assoc a.data b.data c.data)

theorem startswith_cs_layer (s : String) : pyStartswith ("cs:" ++ s) LAYER_PREFIX = false := rfl

theorem startswith_cs_interface (s : String) :
    pyStartswith ("cs:" ++ s) INTERFACE_PREFIX = false := rfl

theorem startswith_cs_cs (s : String) : pyStartswith ("cs:" ++ s) CHARM_PREFIX = true := by
  simp [pyStartswith, listPrefixOf, CHARM_PREFIX]

/-- On the charm branch without the `cs:` prefix, the reassignment prepends it. -/
theorem normalize_item_bare (item : String)
    (h1 : pyStartswith item LAYER_PREFIX = false)
    (h2 : pyStartswith item INTERFACE_PREFIX = false)
    (h3 : pyStartswith item CHARM_PREFIX = false) :
    normalize_item item = "cs:" ++ item := by
  simp [normalize_item, h1, h2, h3]
  rfl

/-- For `layer:`/`interface:` items the identifier is left unchanged. -/
theorem normalize_item_li (item : String)
    (h : (pyStartswith item LAYER_PREFIX || pyStartswith item INTERFACE_PREFIX) = true) :
    normalize_item item = item := by
  rcases Bool.or_eq_true_iff.mp h with h | h
  · simp [normalize_item, h]
  · by_cases hl : pyStartswith item LAYER_PREFIX <;> simp [normalize_item, hl, h]

/-- In every branch the final world of `download_item` is the world after
the series-directory step. -/
theorem download_item_world (gf : String → Option Fetcher) (w : World) (item : String)
    (dir0 : Option String) :
    (download_item gf w item dir0).world = post_world w item dir0 := by
  simp only [download_item, run_fetch]
  repeat' split <;> try rfl

/-! Concrete fixtures used by witnesses and counterexamples. -/

/-- A world with no environment variables, working directory `/cwd`, and an
empty filesystem. -/
def wEmpty : World := ⟨fun _ => none, "/cwd", "/home", fun _ => false⟩

/-- A registry that never recognises an identifier. -/
def gfNone : String → Option Fetcher := fun _ => none

/-- A non-interface fetcher whose fetch succeeds. -/
def fPlain : Fetcher := ⟨false, fun d => d, fun _ => .ok "dest"⟩

/-- A registry that always returns the plain fetcher. -/
def gfPlain : String → Option Fetcher := fun _ => some fPlain

/-- An interface fetcher targeting `dir/iface-target`. -/
def fIface : Fetcher := ⟨true, fun d => d ++ "/iface-target", fun _ => .ok "idest"⟩

/-- A registry recognising exactly `interface:x`, as an interface fetcher. -/
def gfIface : String → Option Fetcher :=
  fun s => if s == "interface:x" then some fIface else none

/-- A world in which the target of `fIface` under `/cwd` already exists. -/
def wIfaceHit : World := ⟨fun _ => none, "/cwd", "/home", fun p => p == "/cwd/iface-target"⟩

/-- A world in which only `/cwd/interface:x` exists — the path the claim
computes as the collision target for a non-interface fetcher on the
identifier `interface:x`. -/
def wLIHit : World := ⟨fun _ => none, "/cwd", "/home", fun p => p == "/cwd/interface:x"⟩

/-- A world in which only `/cwd/foo` exists. -/
def wFooHit : World := ⟨fun _ => none, "/cwd", "/home", fun p => p == "/cwd/foo"⟩

/-- C10 (confirmed).  For a `layer:`- or `interface:`-prefixed identifier
whose registry lookup returns a fetcher that is not an interface fetcher,
the collision check reads the local `charm_name`, which only the charm
branch of the resolver assigns; `download_item` therefore raises an
unbound-local error instead of returning a result or message. -/
theorem c10_unbound_charm_name (gf : String → Option Fetcher) (w : World)
    (item : String) (dir0 : Option String) (f : Fetcher)
    (hli : (pyStartswith item LAYER_PREFIX || pyStartswith item INTERFACE_PREFIX) = true)
    (hgf : gf item = some f) (hf : f.isInterface = false) :
    (download_item gf w item dir0).result = .raised .unboundLocal := by
  have hnorm : normalize_item item = item := normalize_item_li item hli
  have hcn : derive_charm_name item = none := by simp [derive_charm_name, hli]
  simp only [download_item, hnorm, hgf, hcn, hf]
  rfl

/-- Witness for C10 at identifier `layer:x` with a registry that returns a
non-interface fetcher for it. -/
theorem c10_witness :
    (pyStartswith "layer:x" LAYER_PREFIX || pyStartswith "layer:x" INTERFACE_PREFIX) = true
    ∧ gfPlain "layer:x" = some fPlain
    ∧ fPlain.isInterface = false
    ∧ (download_item gfPlain wEmpty "layer:x" none).result = .raised .unboundLocal :=
  ⟨by decide, rfl, rfl, c10_unbound_charm_name gfPlain wEmpty "layer:x" none fPlain (by decide) rfl rfl⟩

/-- C1 counterexample.  Identifier `interface:x`, a registry that returns a
non-interface fetcher for it, and a filesystem on which the collision-check
path the claim prescribes for non-interface fetchers —
`<resolved destination>/<last slash-segment of the identifier>`, here
`/cwd/interface:x` — already exists.  The claim demands the abort message
naming that path; `download_item` instead raises the unbound-local error,
so the claim is false as stated. -/
theorem c1_counterexample :
    wLIHit.pathExists (pyJoin (effective_dir wLIHit "interface:x" none) "interface:x") = true
    ∧ (gfPlain (normalize_item "interface:x")).isSome = true
    ∧ fPlain.isInterface = false
    ∧ (download_item gfPlain wLIHit "interface:x" none).result = .raised .unboundLocal
    ∧ ¬ (download_item gfPlain wLIHit "interface:x" none).result
        = .msg ( ERR_DIR_EXISTS ++ ": " ++ pyJoin (effective_dir wLIHit "interface:x" none) "interface:x") := by
  refine ⟨by decide, rfl, rfl, by decide, by decide⟩

/-- C1 (amended).  If the fetcher found for the (normalized) identifier is
an interface fetcher and its target under the effective directory already
exists, or it is a non-interface fetcher, the local `charm_name` was
assigned (charm branch), and `<effective dir>/<charm_name>` already exists,
then the fetch operation is never invoked and `download_item` returns the
string `Aborting, destination directory exists: ` followed by the colliding
path.  (The amendment excludes the remaining corner — a `layer:`/`interface:`
identifier resolved to a non-interface fetcher — where `download_item`
raises the unbound-local error of C10 instead.) -/
theorem c1_abort_on_existing_destination (gf : String → Option Fetcher) (w : World)
    (item : String) (dir0 : Option String) (f : Fetcher)
    (hgf : gf (normalize_item item) = some f) :
    (f.isInterface = true →
      (post_world w item dir0).pathExists (f.target (effective_dir w item dir0)) = true →
      (download_item gf w item dir0).result
          = .msg ( ERR_DIR_EXISTS ++ ": " ++ f.target (effective_dir w item dir0))
        ∧ (download_item gf w item dir0).fetchCalls = 0)
    ∧ (∀ cn, f.isInterface = false → derive_charm_name item = some cn →
      (post_world w item dir0).pathExists (pyJoin (effective_dir w item dir0) cn) = true →
      (download_item gf w item dir0).result
          = .msg ( ERR_DIR_EXISTS ++ ": " ++ pyJoin (effective_dir w item dir0) cn)
        ∧ (download_item gf w item dir0).fetchCalls = 0) := by
  constructor
  · intro hi hex
    simp only [download_item, hgf, hi, hex]
    exact ⟨rfl, rfl⟩
  · intro cn hi hcn hex
    simp only [download_item, hgf, hi, hcn, hex]
    exact ⟨rfl, rfl⟩

/-- Witness for C1: both branches at concrete inputs — an interface fetcher
for `interface:x` whose target exists, and the plain fetcher for the bare
charm `foo` with `/cwd/foo` existing. -/
theorem c1_witness :
    gfIface (normalize_item "interface:x") = some fIface
    ∧ fIface.isInterface = true
    ∧ (post_world wIfaceHit "interface:x" none).pathExists
        (fIface.target (effective_dir wIfaceHit "interface:x" none)) = true
    ∧ ((download_item gfIface wIfaceHit "interface:x" none).result
          = .msg ( ERR_DIR_EXISTS ++ ": " ++ fIface.target (effective_dir wIfaceHit "interface:x" none))
        ∧ (download_item gfIface wIfaceHit "interface:x" none).fetchCalls = 0)
    ∧ gfPlain (normalize_item "foo") = some fPlain
    ∧ derive_charm_name "foo" = some "foo"
    ∧ (post_world wFooHit "foo" none).pathExists
        (pyJoin (effective_dir wFooHit "foo" none) "foo") = true
    ∧ ((download_item gfPlain wFooHit "foo" none).result
          = .msg ( ERR_DIR_EXISTS ++ ": " ++ pyJoin (effective_dir wFooHit "foo" none) "foo")
        ∧ (download_item gfPlain wFooHit "foo" none).fetchCalls = 0) :=
  ⟨rfl, rfl, by decide,
    (c1_abort_on_existing_destination gfIface wIfaceHit "interface:x" none fIface rfl).1 rfl (by decide),
    rfl, by decide, by decide,
    (c1_abort_on_existing_destination gfPlain wFooHit "foo" none fPlain rfl).2 "foo" rfl (by decide) (by decide)⟩

/-- C4 counterexample.  For the bare charm identifier `foo` with no
matching fetcher, `download_item` returns the not-found message built from
the reassigned identifier `cs:foo`, not from the original identifier `foo`
as the claim states. -/
theorem c4_counterexample :
    (download_item gfNone wEmpty "foo" none).result = .msg ( CANT_FIND ++ "cs:foo")
    ∧ ¬ (download_item gfNone wEmpty "foo" none).result = .msg ( CANT_FIND ++ "foo") := by
  refine ⟨by decide, by decide⟩

/-- C4 (amended).  When the registry finds no fetcher for the (normalized)
identifier, `download_item` returns exactly the not-found message with the
*normalized* identifier substituted (equal to the original whenever the
original already carried a `layer:`, `interface:` or `cs:` prefix), raises
nothing, never runs a fetch, and leaves the filesystem exactly as the
series-directory step of the resolver left it. -/
theorem c4_no_fetcher_message (gf : String → Option Fetcher) (w : World)
    (item : String) (dir0 : Option String)
    (h : gf (normalize_item item) = none) :
    (download_item gf w item dir0).result = .msg ( CANT_FIND ++ normalize_item item)
    ∧ (∀ e, ¬ (download_item gf w item dir0).result = .raised e)
    ∧ (download_item gf w item dir0).fetchCalls = 0
    ∧ (download_item gf w item dir0).world = post_world w item dir0
    ∧ ((pyStartswith item LAYER_PREFIX || pyStartswith item INTERFACE_PREFIX) = true →
        normalize_item item = item)
    ∧ (pyStartswith item CHARM_PREFIX = true → normalize_item item = item) := by
  refine ⟨?_, ?_, ?_, download_item_world gf w item dir0, normalize_item_li item, ?_⟩
  · simp only [download_item, h]
  · intro e
    simp only [download_item, h]
    intro hcontra
    exact DLResult.noConfusion hcontra
  · simp only [download_item, h]
  · intro h3
    by_cases h1 : pyStartswith item LAYER_PREFIX
    · simp [normalize_item, h1]
    · by_cases h2 : pyStartswith item INTERFACE_PREFIX <;> simp [normalize_item, h1, h2, h3]

/-- Witness for C4 at identifier `trusty/foo` with the empty registry. -/
theorem c4_witness :
    gfNone (normalize_item "trusty/foo") = none
    ∧ (download_item gfNone wEmpty "trusty/foo" none).result
        = .msg ( CANT_FIND ++ normalize_item "trusty/foo")
    ∧ (download_item gfNone wEmpty "trusty/foo" none).fetchCalls = 0 :=
  ⟨rfl,
    (c4_no_fetcher_message gfNone wEmpty "trusty/foo" none rfl).1,
    (c4_no_fetcher_message gfNone wEmpty "trusty/foo" none rfl).2.2.1⟩

/-- C5 counterexample.  For the identifier `/foo` (normalized `cs:/foo`)
the split has exactly two segments `["", "foo"]` and the first does not
start with `~`, so the claim derives the series `""` and demands that
`<base>/<series>` be created (it is absent) and become the effective
destination.  The code instead ignores the falsy `series_dir`: nothing is
created and the base stays the destination. -/
theorem c5_counterexample :
    charm_parts "/foo" = ["", "foo"]
    ∧ derive_series "/foo" = some ""
    ∧ (download_item gfNone wEmpty "/foo" none).world.pathExists
        (pyJoin (resolve_base wEmpty "/foo" none) "") = false
    ∧ ¬ effective_dir wEmpty "/foo" none = pyJoin (resolve_base wEmpty "/foo" none) ""
    ∧ final_charm_path wEmpty "/foo" none = some "/cwd/foo" := by
  refine ⟨by decide, by decide, by decide, by decide, by decide⟩

/-- C5 (amended).  On the charm branch the resolver splits the
prefix-stripped identifier on `/`: a two-segment split whose first segment
does not start with `~` derives that first segment as the series, a
three-segment split derives the second segment, every other shape (or a
two-segment split whose first segment starts with `~`) derives none.  When
the derived series is *non-empty*, `<base>/<series>` is created if absent
and becomes the effective destination, making the collision path
`<base>/<series>/<charm-name>`; a derived *empty* segment is treated like
no series (nothing is created, the base stays the destination). -/
theorem c5_series_derivation (gf : String → Option Fetcher) (w : World)
    (item : String) (dir0 : Option String)
    (h1 : pyStartswith item LAYER_PREFIX = false)
    (h2 : pyStartswith item INTERFACE_PREFIX = false) :
    (∀ p0 p1, charm_parts item = [p0, p1] → pyStartswith p0 "~" = false →
      derive_series item = some p0)
    ∧ (∀ p0 p1, charm_parts item = [p0, p1] → pyStartswith p0 "~" = true →
      derive_series item = none)
    ∧ (∀ p0 p1 p2, charm_parts item = [p0, p1, p2] → derive_series item = some p1)
    ∧ ((charm_parts item).length ≠ 2 → (charm_parts item).length ≠ 3 →
      derive_series item = none)
    ∧ (∀ s, derive_series item = some s → ¬ s = "" →
      effective_dir w item dir0 = pyJoin (resolve_base w item dir0) s
      ∧ (download_item gf w item dir0).world.pathExists
          (pyJoin (resolve_base w item dir0) s) = true
      ∧ final_charm_path w item dir0
          = some (pyJoin (pyJoin (resolve_base w item dir0) s)
              ((charm_parts item).getLastD ""))) := by
  refine ⟨?_, ?_, ?_, ?_, ?_⟩
  · intro p0 p1 hp hns
    simp [derive_series, h1, h2, hp, hns]
  · intro p0 p1 hp hys
    simp [derive_series, h1, h2, hp, hys]
  · intro p0 p1 p2 hp
    simp [derive_series, h1, h2, hp]
  · intro hl2 hl3
    simp [derive_series, h1, h2, hl2, hl3]
  · intro s hs hne
    refine ⟨?_, ?_, ?_⟩
    · simp [effective_dir, hs, hne]
    · rw [download_item_world]
      simp only [post_world, hs]
      rw [if_neg hne]
      by_cases hp : w.pathExists (pyJoin (resolve_base w item dir0) s) <;> simp [hp, mkdir]
    · simp [final_charm_path, derive_charm_name, h1, h2, effective_dir, hs, hne]

/-- Witness for C5 covering the two-segment, tilde, and three-segment
cases and the directory-creation effect at `trusty/foo`. -/
theorem c5_witness :
    charm_parts "trusty/foo" = ["trusty", "foo"]
    ∧ derive_series "trusty/foo" = some "trusty"
    ∧ charm_parts "~bob/foo" = ["~bob", "foo"]
    ∧ derive_series "~bob/foo" = none
    ∧ charm_parts "~bob/trusty/foo" = ["~bob", "trusty", "foo"]
    ∧ derive_series "~bob/trusty/foo" = some "trusty"
    ∧ effective_dir wEmpty "trusty/foo" none
        = pyJoin (resolve_base wEmpty "trusty/foo" none) "trusty"
    ∧ (download_item gfNone wEmpty "trusty/foo" none).world.pathExists
        (pyJoin (resolve_base wEmpty "trusty/foo" none) "trusty") = true
    ∧ final_charm_path wEmpty "trusty/foo" none
        = some (pyJoin (pyJoin (resolve_base wEmpty "trusty/foo" none) "trusty")
            ((charm_parts "trusty/foo").getLastD "")) :=
  ⟨by decide,
    (c5_series_derivation gfNone wEmpty "trusty/foo" none (by decide) (by decide)).1
      "trusty" "foo" (by decide) (by decide),
    by decide,
    (c5_series_derivation gfNone wEmpty "~bob/foo" none (by decide) (by decide)).2.1
      "~bob" "foo" (by decide) (by decide),
    by decide,
    (c5_series_derivation gfNone wEmpty "~bob/trusty/foo" none (by decide) (by decide)).2.2.1
      "~bob" "trusty" "foo" (by decide),
    ((c5_series_derivation gfNone wEmpty "trusty/foo" none (by decide) (by decide)).2.2.2.2
      "trusty" (by decide) (by decide)).1,
    ((c5_series_derivation gfNone wEmpty "trusty/foo" none (by decide) (by decide)).2.2.2.2
      "trusty" (by decide) (by decide)).2.1,
    ((c5_series_derivation gfNone wEmpty "trusty/foo" none (by decide) (by decide)).2.2.2.2
      "trusty" (by decide) (by decide)).2.2⟩

/-- A world in which only the final charm path `/cwd/trusty/foo` exists
(so the series directory `/cwd/trusty` itself is absent). -/
def wSeriesHit : World := ⟨fun _ => none, "/cwd", "/home", fun p => p == "/cwd/trusty/foo"⟩

/-- C9 (confirmed).  When a non-empty series is derived, the series
subdirectory is created (if absent) by the resolver step, and the final
world of `download_item` — whatever the result, including the not-found
and the abort outcomes — still contains it: the only filesystem effect of
the orchestrator is the series-directory creation, which the later error
paths never roll back. -/
theorem c9_series_dir_survives_errors (gf : String → Option Fetcher) (w : World)
    (item : String) (dir0 : Option String) (s : String)
    (hs : derive_series item = some s) (hne : ¬ s = "") :
    (download_item gf w item dir0).world.pathExists
      (pyJoin (resolve_base w item dir0) s) = true
    ∧ (download_item gf w item dir0).world = post_world w item dir0 := by
  refine ⟨?_, download_item_world gf w item dir0⟩
  rw [download_item_world]
  simp only [post_world, hs]
  rw [if_neg hne]
  by_cases hp : w.pathExists (pyJoin (resolve_base w item dir0) s) <;> simp [hp, mkdir]

/-- Witness for C9 on two error paths: the not-found path (empty registry)
and the collision-abort path (existing `/cwd/trusty/foo`); in both the
series directory `/cwd/trusty` is created and survives. -/
theorem c9_witness :
    derive_series "trusty/foo" = some "trusty"
    ∧ (download_item gfNone wEmpty "trusty/foo" none).result
        = .msg ( CANT_FIND ++ "cs:trusty/foo")
    ∧ (download_item gfNone wEmpty "trusty/foo" none).world.pathExists
        (pyJoin (resolve_base wEmpty "trusty/foo" none) "trusty") = true
    ∧ (download_item gfPlain wSeriesHit "trusty/foo" none).result
        = .msg ( ERR_DIR_EXISTS ++ ": " ++ "/cwd/trusty/foo")
    ∧ (download_item gfPlain wSeriesHit "trusty/foo" none).world.pathExists
        (pyJoin (resolve_base wSeriesHit "trusty/foo" none) "trusty") = true :=
  ⟨by decide, by decide,
    (c9_series_dir_survives_errors gfNone wEmpty "trusty/foo" none "trusty"
      (by decide) (by decide)).1,
    by decide,
    (c9_series_dir_survives_errors gfPlain wSeriesHit "trusty/foo" none "trusty"
      (by decide) (by decide)).1⟩

/-- C7 (confirmed).  For a charm identifier lacking the `cs:` prefix,
`download_item` behaves identically — same outcome, same final world, same
fetch count — to the same invocation with the prefix supplied. -/
theorem c7_cs_prefix_idempotent (gf : String → Option Fetcher) (w : World)
    (item : String) (dir0 : Option String)
    (h1 : pyStartswith item LAYER_PREFIX = false)
    (h2 : pyStartswith item INTERFACE_PREFIX = false)
    (h3 : pyStartswith item CHARM_PREFIX = false) :
    download_item gf w item dir0 = download_item gf w ("cs:" ++ item) dir0 := by
  have hn1 : normalize_item item = "cs:" ++ item := normalize_item_bare item h1 h2 h3
  have hn2 : normalize_item ("cs:" ++ item) = "cs:" ++ item := by
    simp [normalize_item, startswith_cs_layer, startswith_cs_interface, startswith_cs_cs]
  have henv : env_dir w item dir0 = env_dir w ("cs:" ++ item) dir0 := by
    simp [env_dir, h1, h2, startswith_cs_layer, startswith_cs_interface]
  have hparts : charm_parts item = charm_parts ("cs:" ++ item) := by
    unfold charm_parts
    rw [hn1, hn2]
  have hcn : derive_charm_name item = derive_charm_name ("cs:" ++ item) := by
    simp [derive_charm_name, h1, h2, startswith_cs_layer, startswith_cs_interface, hparts]
  have hser : derive_series item = derive_series ("cs:" ++ item) := by
    simp only [derive_series, h1, h2, startswith_cs_layer, startswith_cs_interface, hparts]
  have hrb : resolve_base w item dir0 = resolve_base w ("cs:" ++ item) dir0 := by
    unfold resolve_base
    rw [henv]
  have heff : effective_dir w item dir0 = effective_dir w ("cs:" ++ item) dir0 := by
    unfold effective_dir
    rw [hser, hrb]
  have hpw : post_world w item dir0 = post_world w ("cs:" ++ item) dir0 := by
    unfold post_world
    rw [hser, hrb]
  simp only [download_item]
  rw [hn1, hn2, heff, hpw, hcn]

/-- Witness for C7 at the bare identifier `foo` against `cs:foo`. -/
theorem c7_witness :
    pyStartswith "foo" LAYER_PREFIX = false
    ∧ pyStartswith "foo" INTERFACE_PREFIX = false
    ∧ pyStartswith "foo" CHARM_PREFIX = false
    ∧ download_item gfPlain wEmpty "foo" none = download_item gfPlain wEmpty "cs:foo" none :=
  ⟨by decide, by decide, by decide,
    c7_cs_prefix_idempotent gfPlain wEmpty "foo" none (by decide) (by decide) (by decide)⟩

/-- C6 (confirmed).  With `dir` not given, the resolved base is the value
of the environment variable selected by the prefix of the identifier
(`LAYER_PATH` for `layer:`, `INTERFACE_PATH` for `interface:`,
`JUJU_REPOSITORY` otherwise), user-home-expanded and made absolute; when
that variable is unset the working directory is used instead — for each
of the three prefix classes.  In
particular for identifier `foo` with `JUJU_REPOSITORY` unset (and an
absolute, tilde-free working directory not ending in a slash) the resolved
base is the working directory and the final charm path is `<cwd>/foo`. -/
theorem c6_env_resolution (w : World) (item v : String) :
    (pyStartswith item LAYER_PREFIX = true →
      w.env "LAYER_PATH" = some v → ¬ v = "" →
      resolve_base w item none = abspath w.cwd (expanduser w.home v))
    ∧ (pyStartswith item LAYER_PREFIX = false → pyStartswith item INTERFACE_PREFIX = true →
      w.env "INTERFACE_PATH" = some v → ¬ v = "" →
      resolve_base w item none = abspath w.cwd (expanduser w.home v))
    ∧ (pyStartswith item LAYER_PREFIX = false → pyStartswith item INTERFACE_PREFIX = false →
      w.env "JUJU_REPOSITORY" = some v → ¬ v = "" →
      resolve_base w item none = abspath w.cwd (expanduser w.home v))
    ∧ (pyStartswith item LAYER_PREFIX = false → pyStartswith item INTERFACE_PREFIX = false →
      w.env "JUJU_REPOSITORY" = none →
      resolve_base w item none = abspath w.cwd (expanduser w.home w.cwd))
    ∧ (w.env "JUJU_REPOSITORY" = none →
      pyStartswith w.cwd "/" = true → ¬ w.cwd = "~" → pyStartswith w.cwd "~/" = false →
      ¬ w.cwd = "" → ¬ w.cwd.data.getLast? = some '/' →
      resolve_base w "foo" none = w.cwd
      ∧ final_charm_path w "foo" none = some (w.cwd ++ "/foo"))
    ∧ (pyStartswith item LAYER_PREFIX = true →
      w.env "LAYER_PATH" = none →
      resolve_base w item none = abspath w.cwd (expanduser w.home w.cwd))
    ∧ (pyStartswith item LAYER_PREFIX = false → pyStartswith item INTERFACE_PREFIX = true →
      w.env "INTERFACE_PATH" = none →
      resolve_base w item none = abspath w.cwd (expanduser w.home w.cwd)) := by
  refine ⟨?_, ?_, ?_, ?_, ?_, ?_, ?_⟩
  · intro hl he hv
    simp [resolve_base, env_dir, hl, he, pyOr, pyOrStr, hv]
  · intro hl hi he hv
    simp [resolve_base, env_dir, hl, hi, he, pyOr, pyOrStr, hv]
  · intro hl hi he hv
    simp [resolve_base, env_dir, hl, hi, he, pyOr, pyOrStr, hv]
  · intro hl hi he
    simp [resolve_base, env_dir, hl, hi, he, pyOr, pyOrStr]
  · intro h6 hcs hnt hnts hne hnl
    have e1 : pyStartswith "foo" LAYER_PREFIX = false := by decide
    have e2 : pyStartswith "foo" INTERFACE_PREFIX = false := by decide
    have e3 : derive_series "foo" = none := by decide
    have e5 : derive_charm_name "foo" = some "foo" := by decide
    have e6 : pyStartswith "foo" "/" = false := by decide
    have hrb : resolve_base w "foo" none = w.cwd := by
      simp [resolve_base, env_dir, e1, e2, h6, pyOr, pyOrStr, expanduser, hnt, hnts,
        abspath, hcs]
    refine ⟨hrb, ?_⟩
    simp only [final_charm_path, e5, effective_dir, e3, hrb]
    simp only [pyJoin, e6, Bool.false_eq_true, if_false, hne, hnl, if_neg, ite_false]
    simp [e6, hne, hnl]
    rw [strAppend_assoc]
    congr 1
  · intro hl he
    simp [resolve_base, env_dir, hl, he, pyOr, pyOrStr]
  · intro hl hi he
    simp [resolve_base, env_dir, hl, hi, he, pyOr, pyOrStr]

/-- A world with `JUJU_REPOSITORY` set to `/repo` and nothing else. -/
def wRepo : World :=
  ⟨fun k => if k == "JUJU_REPOSITORY" then some "/repo" else none, "/cwd", "/home",
    fun _ => false⟩

/-- Witness for C6: the `JUJU_REPOSITORY`-set case and the all-unset
`foo` case at concrete worlds. -/
theorem c6_witness :
    wRepo.env "JUJU_REPOSITORY" = some "/repo"
    ∧ resolve_base wRepo "foo" none = abspath wRepo.cwd (expanduser wRepo.home "/repo")
    ∧ wEmpty.env "JUJU_REPOSITORY" = none
    ∧ resolve_base wEmpty "foo" none = wEmpty.cwd
    ∧ final_charm_path wEmpty "foo" none = some (wEmpty.cwd ++ "/foo")
    ∧ wEmpty.env "LAYER_PATH" = none
    ∧ resolve_base wEmpty "layer:x" none
        = abspath wEmpty.cwd (expanduser wEmpty.home wEmpty.cwd)
    ∧ wEmpty.env "INTERFACE_PATH" = none
    ∧ resolve_base wEmpty "interface:x" none
        = abspath wEmpty.cwd (expanduser wEmpty.home wEmpty.cwd) :=
  ⟨rfl,
    (c6_env_resolution wRepo "foo" "/repo").2.2.1 (by decide) (by decide) rfl (by decide),
    rfl,
    ((c6_env_resolution wEmpty "foo" "x").2.2.2.2.1 rfl (by decide) (by decide) (by decide)
      (by decide) (by decide)).1,
    ((c6_env_resolution wEmpty "foo" "x").2.2.2.2.1 rfl (by decide) (by decide) (by decide)
      (by decide) (by decide)).2,
    rfl,
    (c6_env_resolution wEmpty "layer:x" "x").2.2.2.2.2.1 (by decide) rfl,
    rfl,
    (c6_env_resolution wEmpty "interface:x" "x").2.2.2.2.2.2 (by decide) (by decide) rfl⟩

/-- A non-interface fetcher whose fetch raises `FetchError`. -/
def fFetchErr : Fetcher := ⟨false, fun d => d, fun _ => .error .fetchError⟩

/-- A registry that always returns `fFetchErr`. -/
def gfFetchErr : String → Option Fetcher := fun _ => some fFetchErr

/-- A non-interface fetcher whose fetch raises a non-`FetchError` exception. -/
def fIOErr : Fetcher := ⟨false, fun d => d, fun _ => .error (.otherExc "IOError")⟩

/-- A registry that always returns `fIOErr`. -/
def gfIOErr : String → Option Fetcher := fun _ => some fIOErr

/-- C8 counterexample.  A matched fetcher whose fetch raises an exception
that is not a `FetchError` (here an `IOError`): the `except` clause of
`download_item` does not catch it, so the call propagates the exception
instead of returning the not-found report the claim promises for every
fetch-time failure. -/
theorem c8_counterexample :
    (download_item gfIOErr wEmpty "cs:foo" none).result = .raised (.otherExc "IOError")
    ∧ ¬ (download_item gfIOErr wEmpty "cs:foo" none).result = .msg ( CANT_FIND ++ "cs:foo") := by
  refine ⟨by decide, by decide⟩

/-- C8 (amended).  When a fetcher was found, the collision check passed and
the fetch operation fails, `download_item` converts the failure to the
not-found report — without retrying (the fetch runs exactly once) — if and
only if the failure is the registry `FetchError`; a failure of any other
exception type propagates out of `download_item` uncaught. -/
theorem c8_fetch_failure_reporting (gf : String → Option Fetcher) (w : World)
    (item : String) (dir0 : Option String) (f : Fetcher)
    (hgf : gf (normalize_item item) = some f)
    (hreach : (f.isInterface = true
        ∧ (post_world w item dir0).pathExists (f.target (effective_dir w item dir0)) = false)
      ∨ (f.isInterface = false
        ∧ ∃ cn, derive_charm_name item = some cn
          ∧ (post_world w item dir0).pathExists (pyJoin (effective_dir w item dir0) cn) = false)) :
    (f.fetch (effective_dir w item dir0) = .error .fetchError →
      (download_item gf w item dir0).result = .msg ( CANT_FIND ++ normalize_item item)
      ∧ (download_item gf w item dir0).fetchCalls = 1)
    ∧ (∀ en, f.fetch (effective_dir w item dir0) = .error (.otherExc en) →
      (download_item gf w item dir0).result = .raised (.otherExc en)
      ∧ (download_item gf w item dir0).fetchCalls = 1) := by
  rcases hreach with ⟨hi, hex⟩ | ⟨hi, cn, hcn, hex⟩
  · constructor
    · intro hf
      simp only [download_item, hgf, hi, hex, run_fetch, hf]
      exact ⟨rfl, rfl⟩
    · intro en hf
      simp only [download_item, hgf, hi, hex, run_fetch, hf]
      exact ⟨rfl, rfl⟩
  · constructor
    · intro hf
      simp only [download_item, hgf, hi, hcn, hex, run_fetch, hf]
      exact ⟨rfl, rfl⟩
    · intro en hf
      simp only [download_item, hgf, hi, hcn, hex, run_fetch, hf]
      exact ⟨rfl, rfl⟩

/-- Witness for C8 at `cs:foo` with a fetcher that raises `FetchError`. -/
theorem c8_witness :
    gfFetchErr (normalize_item "cs:foo") = some fFetchErr
    ∧ fFetchErr.fetch (effective_dir wEmpty "cs:foo" none) = .error .fetchError
    ∧ (download_item gfFetchErr wEmpty "cs:foo" none).result
        = .msg ( CANT_FIND ++ normalize_item "cs:foo")
    ∧ (download_item gfFetchErr wEmpty "cs:foo" none).fetchCalls = 1 :=
  ⟨rfl, rfl,
    ((c8_fetch_failure_reporting gfFetchErr wEmpty "cs:foo" none fFetchErr rfl
      (Or.inr ⟨rfl, "foo", by decide, by decide⟩)).1 rfl).1,
    ((c8_fetch_failure_reporting gfFetchErr wEmpty "cs:foo" none fFetchErr rfl
      (Or.inr ⟨rfl, "foo", by decide, by decide⟩)).1 rfl).2⟩

/-- A VCS fetcher whose fetch yields `vcs-dest`. -/
def fVcs : Fetcher := ⟨false, fun d => d, fun _ => .ok "vcs-dest"⟩

/-- Store context: metadata maps every entity to the url `lp:charm`, which
the registry recognises as `fVcs`; the superclass fetch yields `store-dest`. -/
def ctxVcs : StoreCtx :=
  ⟨fun _ => some "lp:charm", fun u => if u == "lp:charm" then some fVcs else none,
    fun _ => .ok "store-dest"⟩

/-- Store context: metadata carries a `bzr-url` key whose value is the
*empty* string; the registry recognises even the empty url. -/
def ctxEmptyUrl : StoreCtx :=
  ⟨fun _ => some "", fun u => if u == "" then some fVcs else none,
    fun _ => .ok "store-dest"⟩

/-- Store context: metadata yields a url that no fetcher recognises. -/
def ctxMiss : StoreCtx :=
  ⟨fun _ => some "lp:charm", fun _ => none, fun _ => .ok "store-dest"⟩

/-- Store context: metadata has no `bzr-url` key. -/
def ctxNoUrl : StoreCtx :=
  ⟨fun _ => none, fun _ => none, fun _ => .ok "store-dest"⟩

/-- C2 counterexample.  A store item whose metadata document *contains* a
`bzr-url` key with the empty-string value, and a registry that recognises
that URL: the code tests Python truthiness, not key presence, so it takes
the default store-backed fetch rather than delegating to the looked-up
fetcher, contradicting the claim. -/
theorem c2_counterexample :
    ctxEmptyUrl.bzrUrl "precise/mysql-1" = some ""
    ∧ (ctxEmptyUrl.getFetcher "").isSome = true
    ∧ (CharmstoreRepoDownloader.fetch ctxEmptyUrl ⟨"precise/mysql-1"⟩ "/dl").superCalled = true
    ∧ (CharmstoreRepoDownloader.fetch ctxEmptyUrl ⟨"precise/mysql-1"⟩ "/dl").result
        = .ok "store-dest"
    ∧ ¬ (CharmstoreRepoDownloader.fetch ctxEmptyUrl ⟨"precise/mysql-1"⟩ "/dl").result
        = .ok "vcs-dest" := by
  refine ⟨rfl, rfl, rfl, rfl, ?_⟩
  intro h
  have h2 : "store-dest" = "vcs-dest" := Except.ok.inj h
  exact absurd h2 (by decide)

/-- C2 (amended).  For a store item whose extra-info metadata query returns
a `bzr-url` key with a *non-empty* (truthy) value, and whose registry
lookup on that URL succeeds, `CharmstoreRepoDownloader.fetch` returns
exactly the result of the looked-up fetcher applied to the directory, and
the default store-backed (superclass) fetch is not performed. -/
theorem c2_delegates_to_vcs_fetcher (ctx : StoreCtx) (self : CharmstoreRepoDownloader)
    (dir u : String) (f : Fetcher)
    (hu : ctx.bzrUrl self.entity = some u) (hne : ¬ u = "")
    (hf : ctx.getFetcher u = some f) :
    (CharmstoreRepoDownloader.fetch ctx self dir).result = f.fetch dir
    ∧ (CharmstoreRepoDownloader.fetch ctx self dir).superCalled = false
    ∧ (CharmstoreRepoDownloader.fetch ctx self dir).delegatedTo = some u := by
  simp only [CharmstoreRepoDownloader.fetch, hu, hf]
  rw [if_neg hne]
  exact ⟨rfl, rfl, rfl⟩

/-- Witness for C2 at a concrete context whose registry recognises
`lp:charm`. -/
theorem c2_witness :
    ctxVcs.bzrUrl "precise/mysql-1" = some "lp:charm"
    ∧ ctxVcs.getFetcher "lp:charm" = some fVcs
    ∧ (CharmstoreRepoDownloader.fetch ctxVcs ⟨"precise/mysql-1"⟩ "/dl").result
        = fVcs.fetch "/dl"
    ∧ (CharmstoreRepoDownloader.fetch ctxVcs ⟨"precise/mysql-1"⟩ "/dl").superCalled = false :=
  ⟨rfl, rfl,
    (c2_delegates_to_vcs_fetcher ctxVcs ⟨"precise/mysql-1"⟩ "/dl" "lp:charm" fVcs rfl
      (by decide) rfl).1,
    (c2_delegates_to_vcs_fetcher ctxVcs ⟨"precise/mysql-1"⟩ "/dl" "lp:charm" fVcs rfl
      (by decide) rfl).2.1⟩

/-- C3 (confirmed).  When the metadata query yields a `bzr-url` that the
registry lookup does not recognise (the lookup raises `FetchError`, which
is caught and only logged), and likewise when the metadata has no
`bzr-url` at all, `CharmstoreRepoDownloader.fetch` performs the default
store-backed (superclass) fetch and returns exactly its result, so no
error from the failed lookup reaches the caller. -/
theorem c3_falls_back_to_store (ctx : StoreCtx) (self : CharmstoreRepoDownloader)
    (dir : String) :
    (∀ u, ctx.bzrUrl self.entity = some u → ctx.getFetcher u = none →
      (CharmstoreRepoDownloader.fetch ctx self dir).result = ctx.superFetch dir
      ∧ (CharmstoreRepoDownloader.fetch ctx self dir).superCalled = true
      ∧ (CharmstoreRepoDownloader.fetch ctx self dir).delegatedTo = none)
    ∧ (ctx.bzrUrl self.entity = none →
      (CharmstoreRepoDownloader.fetch ctx self dir).result = ctx.superFetch dir
      ∧ (CharmstoreRepoDownloader.fetch ctx self dir).superCalled = true
      ∧ (CharmstoreRepoDownloader.fetch ctx self dir).delegatedTo = none) := by
  constructor
  · intro u hu hf
    by_cases hu0 : u = ""
    · simp [CharmstoreRepoDownloader.fetch, hu, hu0]
    · simp only [CharmstoreRepoDownloader.fetch, hu, hf]
      rw [if_neg hu0]
      refine ⟨?_, ?_, ?_⟩ <;> trivial
  · intro hn
    simp only [CharmstoreRepoDownloader.fetch, hn]
    refine ⟨?_, ?_, ?_⟩ <;> trivial

/-- Witness for C3: a lookup miss on `lp:charm` and a metadata document
without `bzr-url`, both at concrete contexts. -/
theorem c3_witness :
    ctxMiss.bzrUrl "precise/mysql-1" = some "lp:charm"
    ∧ ctxMiss.getFetcher "lp:charm" = none
    ∧ (CharmstoreRepoDownloader.fetch ctxMiss ⟨"precise/mysql-1"⟩ "/dl").result
        = ctxMiss.superFetch "/dl"
    ∧ (CharmstoreRepoDownloader.fetch ctxMiss ⟨"precise/mysql-1"⟩ "/dl").superCalled = true
    ∧ ctxNoUrl.bzrUrl "precise/mysql-1" = none
    ∧ (CharmstoreRepoDownloader.fetch ctxNoUrl ⟨"precise/mysql-1"⟩ "/dl").result
        = ctxNoUrl.superFetch "/dl"
    ∧ (CharmstoreRepoDownloader.fetch ctxNoUrl ⟨"precise/mysql-1"⟩ "/dl").superCalled = true :=
  ⟨rfl, rfl,
    ((c3_falls_back_to_store ctxMiss ⟨"precise/mysql-1"⟩ "/dl").1 "lp:charm" rfl rfl).1,
    ((c3_falls_back_to_store ctxMiss ⟨"precise/mysql-1"⟩ "/dl").1 "lp:charm" rfl rfl).2.1,
    rfl,
    ((c3_falls_back_to_store ctxNoUrl ⟨"precise/mysql-1"⟩ "/dl").2 rfl).1,
    ((c3_falls_back_to_store ctxNoUrl ⟨"precise/mysql-1"⟩ "/dl").2 rfl).2.1⟩
